import Mathlib

/- Verification of the recording and analysis pipeline of the co-thinking
agent simulation.  The Python sources are embedded shallowly: text is
modelled as a list of characters, Python floats as exact rationals (and as
reals where a square root is taken), Python dicts as structures, and the
possibility of an exception as an explicit `Except` value.  Each definition
mirrors one function of the source tree
(`implementation/analysis/response_analyzer.py`,
`implementation/core/data_collection.py`,
`implementation/analysis/data_analyzer.py`). -/

/-! ## Basic Python string primitives -/

/-- Word character in the sense of the regular-expression `\b` boundary:
letters, digits and underscore (the source texts are ASCII). -/
def isWordChar (c : Char) : Bool := c.isAlpha || c.isDigit || c == '_'

/-- Lower-case a character list, mirroring Python `str.lower` on ASCII text. -/
def lowerList (s : List Char) : List Char := s.map Char.toLower

/-- Helper for `splitDot`: accumulate the current chunk (reversed). -/
def splitDotAux : List Char → List Char → List (List Char)
  | [], acc => [acc.reverse]
  | c :: cs, acc =>
    if c = '.' then acc.reverse :: splitDotAux cs [] else splitDotAux cs (c :: acc)

/-- Python `text.split('.')`: split at every period, keeping empty chunks. -/
def splitDot (s : List Char) : List (List Char) := splitDotAux s []

/-- Helper for `pyWords`: accumulate the current word (reversed). -/
def pyWordsAux : List Char → List Char → List (List Char)
  | [], acc => if acc.isEmpty then [] else [acc.reverse]
  | c :: cs, acc =>
    if c.isWhitespace then
      if acc.isEmpty then pyWordsAux cs [] else acc.reverse :: pyWordsAux cs []
    else pyWordsAux cs (c :: acc)

/-- Python `text.split()` with no argument: whitespace-delimited tokens,
empty tokens discarded. -/
def pyWords (s : List Char) : List (List Char) := pyWordsAux s []

/-- Python `text.strip()`: drop leading and trailing whitespace. -/
def pyStrip (s : List Char) : List Char :=
  ((s.dropWhile Char.isWhitespace).reverse.dropWhile Char.isWhitespace).reverse

/-- Python `needle in haystack`: substring containment. -/
def containsSub : List Char → List Char → Bool
  | needle, [] => needle.isEmpty
  | needle, c :: cs => needle.isPrefixOf (c :: cs) || containsSub needle cs

/-! ## A word-boundary alternation matcher

The sources count regular-expression matches of patterns of the shape
`\b(w1|w2|...)\b` (optionally with `re.IGNORECASE`), where every
alternative begins and ends with a word character.  `findall_count`
mirrors `len(re.findall(...))` for exactly this shape of pattern:
scanning left to right, at each position that sits on a word boundary the
alternatives are tried in order, a candidate succeeding only when the
character following it is not a word character; on success the scan
resumes after the match. -/

/-- Match one alternative (case-insensitively when `ci` is true) against a
prefix of the input, returning the remaining input on success. -/
def matchAlt (ci : Bool) : List Char → List Char → Option (List Char)
  | [], rest => some rest
  | _ :: _, [] => none
  | p :: ps, c :: cs =>
    if (if ci then p.toLower == c.toLower else p == c) then matchAlt ci ps cs else none

/-- The trailing `\b` after an alternative that ends in a word character:
satisfied at end of input or before a non-word character. -/
def boundaryAfter : List Char → Bool
  | [] => true
  | c :: _ => !isWordChar c

/-- Try the alternatives in order at the current position (the Python alternation picks the first alternative whose trailing boundary holds). -/
def tryAlts (ci : Bool) (alts : List (List Char)) (input : List Char) : Option (List Char) :=
  match alts with
  | [] => none
  | a :: rest =>
    match matchAlt ci a input with
    | some remaining =>
      if boundaryAfter remaining then some remaining else tryAlts ci rest input
    | none => tryAlts ci rest input

/-- Scan of the input counting non-overlapping matches.  `prevWord` records
whether the previous character was a word character (no alternative can
start there, since every alternative begins with a word character).  The
fuel argument starts at `length + 1` and every step consumes at least one
input character, so it never runs out. -/
def countMatchesAux (ci : Bool) (alts : List (List Char)) :
    Nat → Bool → List Char → Nat
  | 0, _, _ => 0
  | _ + 1, _, [] => 0
  | fuel + 1, prevWord, c :: cs =>
    if prevWord then countMatchesAux ci alts fuel (isWordChar c) cs
    else
      match tryAlts ci alts (c :: cs) with
      | some rest => 1 + countMatchesAux ci alts fuel true rest
      | none => countMatchesAux ci alts fuel (isWordChar c) cs

/-- Count `len(re.findall(r"\b(a1|a2|...)\b", text))`, with `ci` selecting
`re.IGNORECASE`. -/
def findall_count (ci : Bool) (alts : List String) (text : List Char) : Nat :=
  countMatchesAux ci (alts.map String.toList) (text.length + 1) false text

/-! ## Shared numeric helpers -/

/-- Arithmetic mean, `sum(xs) / len(xs)` (the sources only take means of
non-empty collections). -/
def listMean (xs : List ℚ) : ℚ := xs.sum / (xs.length : ℚ)

/-- First-occurrence deduplication, mirroring how `pandas` `unique` and
Python sets built by iteration keep the first occurrence of each value. -/
def uniqueFirstGo [DecidableEq α] (seen : List α) : List α → List α
  | [] => []
  | x :: xs =>
    if x ∈ seen then uniqueFirstGo seen xs else x :: uniqueFirstGo (x :: seen) xs

/-- The distinct values of a list in order of first occurrence. -/
def uniqueFirst [DecidableEq α] (xs : List α) : List α := uniqueFirstGo [] xs

/-- Model of `pandas` `Series.nunique`: number of distinct values. -/
def nunique [DecidableEq α] (xs : List α) : Nat := (uniqueFirst xs).length

/-! ## Shared data model -/

/-- The `profile_summary` dict handed to the recorder and the analyzer.
Every field is optional, mirroring `dict.get` access with defaults. -/
structure ProfileSummary where
  culture : Option String
  age : Option Int
  gender : Option String
  language : Option String
  english_proficiency : Option String
  ses : Option String
  mood : Option String
  trust : Option ℚ
  help_seeking : Option ℚ
  authority_deference : Option ℚ
  privacy_concern : Option ℚ
deriving DecidableEq

/-- A profile dict with no keys (`{}`). -/
def emptyProfile : ProfileSummary :=
  ⟨none, none, none, none, none, none, none, none, none, none, none⟩

/-- The `interaction_data` payload dict passed to
`ComprehensiveDataCollector.record_agent_interaction`; every field is
optional, mirroring `dict.get` with defaults. -/
structure InteractionData where
  timestamp : Option String
  student_response : Option String
  profile_summary : Option ProfileSummary
  interaction_type : Option String
  scenario_context : Option String
  scenario_type : Option String
  task : Option String
deriving DecidableEq

/-- A payload dict with no keys. -/
def emptyInteractionData : InteractionData := ⟨none, none, none, none, none, none, none⟩

/-- Structure `InteractionRecord` from `data_collection.py`: one immutable record per
interaction. -/
structure InteractionRecord where
  timestamp : String
  agent_id : String
  interaction_type : String
  scenario_name : String
  scenario_type : String
  prompt_text : String
  context : String
  task_description : String
  raw_response : String
  response_length_words : Nat
  response_length_chars : Nat
  cultural_background : String
  age : Int
  gender : String
  native_language : String
  english_proficiency : String
  socioeconomic_status : String
  emotional_state : String
  trust_level : ℚ
  help_seeking_tendency : ℚ
  authority_deference : ℚ
  privacy_concern : ℚ
  coherence_score : ℚ
  cultural_consistency_score : ℚ
  foundation_alignment_score : ℚ
  question_types_asked : List String
  response_categories : List String
  psychological_constructs_evident : List String
deriving DecidableEq

/-- The four survey-quality sub-scores computed by
`ComprehensiveDataCollector._assess_survey_quality`. -/
structure SurveyQuality where
  completeness : ℚ
  coherence : ℚ
  specificity : ℚ
  cultural_relevance : ℚ
deriving DecidableEq

/-- A survey record as assembled by
`ComprehensiveDataCollector.record_survey_response` (the parsed
rating/reasoning/theme fields are not needed by any claim and are not
modelled). -/
structure SurveyRecord where
  timestamp : String
  agent_id : String
  survey_type : String
  raw_responses : String
  profile_context : String
  response_quality : SurveyQuality
deriving DecidableEq

/-! ## ResponseAnalyzer (`implementation/analysis/response_analyzer.py`)

Only the numeric scores and the linguistic features are modelled here; the
tag-list outputs (`question_types`, `response_categories`,
`constructs_evident`, `emotional_indicators`) are not needed by any claim
about the analyzer itself and appear only as data carried through the
recorder (see `ResponseAnalysisCore`). -/

namespace ResponseAnalyzer

/-- The connective alternatives of `_calculate_coherence`. -/
def connectives_pattern : List String :=
  ["because", "since", "therefore", "however", "although", "but", "and", "so", "thus"]

/-- The personal-engagement alternatives of `_calculate_coherence`. -/
def personal_pattern : List String :=
  ["I think", "I believe", "In my opinion", "I would", "I feel"]

/-- Model of `[s.strip() for s in response.split('.') if s.strip()]`. -/
def sentences_of (response : List Char) : List (List Char) :=
  ((splitDot response).map pyStrip).filter (fun s => !s.isEmpty)

/-- Coherence factor 1: fraction of sentences with more than 4 words,
`substantial_sentences / max(1, len(sentences))`. -/
def substantial_fraction (response : List Char) : ℚ :=
  let sentences := sentences_of response
  let substantial_sentences := (sentences.filter (fun s => (pyWords s).length > 4)).length
  (substantial_sentences : ℚ) / ((max 1 sentences.length : Nat) : ℚ)

/-- Coherence factor 2: `min(1.0, connectives / 5)` with the connectives
counted case-insensitively. -/
def connective_factor (response : List Char) : ℚ :=
  min 1 ((findall_count true connectives_pattern response : ℚ) / 5)

/-- Coherence factor 3: `min(1.0, personal_refs / 3)`. -/
def personal_factor (response : List Char) : ℚ :=
  min 1 ((findall_count true personal_pattern response : ℚ) / 3)

/-- Model of `ResponseAnalyzer._calculate_coherence`: mean of the four coherence
factors, the fourth being the fixed placeholder `0.8`; `0.0` when no
non-empty sentence exists. -/
def calculate_coherence (response : List Char) : ℚ :=
  let sentences := sentences_of response
  if sentences.length < 1 then 0
  else
    let coherence_factors : List ℚ :=
      [substantial_fraction response, connective_factor response,
       personal_factor response, 4/5]
    listMean coherence_factors

/-- Individual-focused markers of the `individualistic` branch. -/
def individualistic_markers : List String := ["i", "my", "myself", "personally", "individual"]

/-- Group-focused markers of the `collectivistic` branch. -/
def collectivistic_markers : List String :=
  ["we", "our", "together", "group", "community", "family", "collective"]

/-- Individual markers of the `balanced` branch (a reduced set). -/
def balanced_individual_markers : List String := ["i", "my", "myself"]

/-- Collective markers of the `balanced` branch (a reduced set). -/
def balanced_collective_markers : List String := ["we", "our", "together"]

/-- Model of `ResponseAnalyzer._assess_cultural_consistency`: branch on a
case-insensitive substring test of the culture label of the profile; the
patterns run over the lower-cased response. -/
def assess_cultural_consistency (response : List Char) (profile : ProfileSummary) : ℚ :=
  let culture := (profile.culture.getD "").toList
  let culture_lower := lowerList culture
  let response_lower := lowerList response
  if containsSub "individualistic".toList culture_lower then
    min 1 ((findall_count false individualistic_markers response_lower : ℚ) / 8)
  else if containsSub "collectivistic".toList culture_lower then
    min 1 ((findall_count false collectivistic_markers response_lower : ℚ) / 6)
  else if containsSub "balanced".toList culture_lower then
    let individual_count := findall_count false balanced_individual_markers response_lower
    let collective_count := findall_count false balanced_collective_markers response_lower
    1 - |(individual_count : ℚ) - (collective_count : ℚ)| /
        ((max 1 (individual_count + collective_count) : Nat) : ℚ)
  else 7/10

/-- The three foundation-document keyword lexicons. -/
def foundation_keywords : List (String × List String) :=
  [("mollick",
    ["partner", "collaboration", "human agency", "trust", "amplify", "cognitive partner"]),
   ("swiss_ai",
    ["transparency", "human dignity", "privacy", "ethical", "explainable", "human-centered"]),
   ("people_factor",
    ["user experience", "training", "support", "diversity", "human impact", "adaptive"])]

/-- Model of `ResponseAnalyzer._assess_foundation_alignment`: per lexicon the capped
fraction of terms occurring as substrings of the lower-cased response,
averaged over the three lexicons. -/
def assess_foundation_alignment (response : List Char) : ℚ :=
  let response_lower := lowerList response
  let alignment_scores := foundation_keywords.map (fun entry =>
    let terms := entry.2
    let matched := (terms.filter (fun term => containsSub (lowerList term.toList) response_lower)).length
    min 1 ((matched : ℚ) / (terms.length : ℚ)))
  listMean alignment_scores

/-- The `expected_complexity` table of `_assess_proficiency_consistency`,
with the `dict.get` default of `0.2`. -/
def expected_complexity (proficiency : String) : ℚ :=
  if proficiency = "Native" then 3/10
  else if proficiency = "Advanced" then 1/4
  else if proficiency = "Intermediate" then 3/20
  else if proficiency = "Beginner" then 1/20
  else 1/5

/-- Model of `ResponseAnalyzer._assess_proficiency_consistency`:
`clamp(1 - |complex_ratio - expected| / max(expected, 0.1), 0, 1)`. -/
def assess_proficiency_consistency (response : List Char) (profile : ProfileSummary) : ℚ :=
  let proficiency := profile.english_proficiency.getD "Advanced"
  let words := pyWords response
  let complex_words := (words.filter (fun w => w.length > 6)).length
  let complex_ratio := (complex_words : ℚ) / ((max 1 words.length : Nat) : ℚ)
  let expected := expected_complexity proficiency
  let consistency := 1 - |complex_ratio - expected| / max expected (1/10)
  max 0 (min 1 consistency)

/-- The complex-structure connectives of `_calculate_complexity`. -/
def complex_structures_pattern : List String :=
  ["although", "however", "nevertheless", "furthermore", "consequently"]

/-- Model of `ResponseAnalyzer._calculate_complexity`: mean of lexical diversity,
syntactic complexity and semantic complexity; `0.0` for whitespace-only
text. -/
def calculate_complexity (response : List Char) : ℚ :=
  if (pyStrip response).isEmpty then 0
  else
    let words := pyWords response
    let sentences := sentences_of response
    let unique_words := (uniqueFirst (words.map lowerList)).length
    let lexical_diversity := (unique_words : ℚ) / ((max 1 words.length : Nat) : ℚ)
    let avg_sentence_length := (words.length : ℚ) / ((max 1 sentences.length : Nat) : ℚ)
    let syntactic_complexity := min 1 (avg_sentence_length / 15)
    let semantic_complexity :=
      min 1 ((findall_count true complex_structures_pattern response : ℚ) / 3)
    listMean [lexical_diversity, syntactic_complexity, semantic_complexity]

/-- The `linguistic_analysis` dict of `_analyze_linguistic_features`. -/
structure LinguisticFeatures where
  word_count : Nat
  sentence_count : Nat
  avg_sentence_length : ℚ
  complex_words : Nat
  question_count : Nat
  exclamation_count : Nat
  proficiency_consistency : ℚ
deriving DecidableEq

/-- Model of `ResponseAnalyzer._analyze_linguistic_features`. -/
def analyze_linguistic_features (response : List Char) (profile : ProfileSummary) :
    LinguisticFeatures :=
  let words := pyWords response
  let sentences := sentences_of response
  { word_count := words.length
    sentence_count := sentences.length
    avg_sentence_length := (words.length : ℚ) / ((max 1 sentences.length : Nat) : ℚ)
    complex_words := (words.filter (fun w => w.length > 6)).length
    question_count := response.count '?'
    exclamation_count := response.count '!'
    proficiency_consistency := assess_proficiency_consistency response profile }

/-- The portion of the `analyze_response` result dict the claims are about;
`linguistic_analysis` is `none` exactly when the source stores the empty
dict `{}` (the empty-response path). -/
structure ResponseAnalysis where
  coherence_score : ℚ
  cultural_consistency : ℚ
  foundation_alignment : ℚ
  linguistic_analysis : Option LinguisticFeatures
  complexity_score : ℚ
deriving DecidableEq

/-- Model of `ResponseAnalyzer._empty_response_analysis` (numeric and linguistic
portion). -/
def empty_response_analysis : ResponseAnalysis :=
  { coherence_score := 0
    cultural_consistency := 0
    foundation_alignment := 0
    linguistic_analysis := none
    complexity_score := 0 }

set_option linter.unusedVariables false in
/-- Model of `ResponseAnalyzer.analyze_response`: empty or whitespace-only text gets
the all-zero analysis, otherwise the component scores (the `context`
argument is accepted and, as in the source, never used). -/
def analyze_response (response : List Char) (profile : ProfileSummary)
    (context : InteractionData) : ResponseAnalysis :=
  if response.isEmpty || (pyStrip response).isEmpty then empty_response_analysis
  else
    { coherence_score := calculate_coherence response
      cultural_consistency := assess_cultural_consistency response profile
      foundation_alignment := assess_foundation_alignment response
      linguistic_analysis := some (analyze_linguistic_features response profile)
      complexity_score := calculate_complexity response }

end ResponseAnalyzer

/-! ## ComprehensiveDataCollector (`implementation/core/data_collection.py`) -/

namespace DataCollector

/-- The six entries of the analysis dict that
`record_agent_interaction` reads when building a record. -/
structure ResponseAnalysisCore where
  coherence_score : ℚ
  cultural_consistency : ℚ
  foundation_alignment : ℚ
  question_types : List String
  response_categories : List String
  constructs_evident : List String
deriving DecidableEq

/-- The neutral analysis bundle substituted by the `except` handler of
`record_agent_interaction` when `analyze_response` raises. -/
def fallback_analysis : ResponseAnalysisCore :=
  { coherence_score := 1/2
    cultural_consistency := 1/2
    foundation_alignment := 1/2
    question_types := []
    response_categories := []
    constructs_evident := [] }

/-- Model of `ComprehensiveDataCollector.record_agent_interaction`.  The
`try`/`except` around the analyzer call is modelled by the explicit
`analysis_attempt` argument: `Except.ok a` is the value returned by
`analyze_response`, `Except.error e` the exception it raised; the handler
substitutes `fallback_analysis`, so the call as a whole is total and no
exception reaches the caller.  `now` stands for
`datetime.now().isoformat()`, the default used for a missing timestamp.
The returned pair is (record, log after the append). -/
def record_agent_interaction (agent_id : String) (interaction_data : InteractionData)
    (analysis_attempt : Except String ResponseAnalysisCore) (now : String)
    (interaction_records : List InteractionRecord) :
    InteractionRecord × List InteractionRecord :=
  let timestamp := interaction_data.timestamp.getD now
  let raw_response := interaction_data.student_response.getD ""
  let profile_summary := interaction_data.profile_summary.getD emptyProfile
  let response_analysis :=
    match analysis_attempt with
    | .ok a => a
    | .error _ => fallback_analysis
  let record : InteractionRecord :=
    { timestamp := timestamp
      agent_id := agent_id
      interaction_type := interaction_data.interaction_type.getD "scenario"
      scenario_name := interaction_data.scenario_context.getD ""
      scenario_type := interaction_data.scenario_type.getD "general"
      prompt_text := interaction_data.task.getD ""
      context := interaction_data.scenario_context.getD ""
      task_description := interaction_data.task.getD ""
      raw_response := raw_response
      response_length_words := (pyWords raw_response.toList).length
      response_length_chars := raw_response.toList.length
      cultural_background := profile_summary.culture.getD ""
      age := profile_summary.age.getD 0
      gender := profile_summary.gender.getD ""
      native_language := profile_summary.language.getD ""
      english_proficiency := profile_summary.english_proficiency.getD ""
      socioeconomic_status := profile_summary.ses.getD ""
      emotional_state := profile_summary.mood.getD ""
      trust_level := profile_summary.trust.getD 0
      help_seeking_tendency := profile_summary.help_seeking.getD 0
      authority_deference := profile_summary.authority_deference.getD 0
      privacy_concern := profile_summary.privacy_concern.getD 0
      coherence_score := response_analysis.coherence_score
      cultural_consistency_score := response_analysis.cultural_consistency
      foundation_alignment_score := response_analysis.foundation_alignment
      question_types_asked := response_analysis.question_types
      response_categories := response_analysis.response_categories
      psychological_constructs_evident := response_analysis.constructs_evident }
  (record, interaction_records ++ [record])

/-- The connective alternatives of the survey `_calculate_coherence`. -/
def survey_connectives : List String := ["because", "since", "therefore", "however", "although"]

/-- The first-person alternatives of the survey `_calculate_coherence`
(matched case-sensitively: the source passes no `re.IGNORECASE` here). -/
def survey_first_person : List String := ["I", "my", "me"]

/-- Model of `ComprehensiveDataCollector._calculate_coherence` (the survey one):
`text.split('.')` without stripping or filtering; fewer than two chunks
(no period in the text) returns `0.5`; otherwise
`min(1.0, (substantial + connectives + personal) / 10)`. -/
def calculate_coherence (text : List Char) : ℚ :=
  let sentences := splitDot text
  if sentences.length < 2 then 1/2
  else
    let substantial := (sentences.filter (fun s => (pyWords s).length > 3)).length
    let connectives := findall_count true survey_connectives text
    let personal := if 0 < findall_count false survey_first_person text then 1 else 0
    min 1 ((substantial + connectives + personal : ℚ) / 10)

/-- The capped coherence ratio exactly as the specification words it
(substantial-sentence count + connective count + first-person flag, divided
by 10 and capped at 1), with no short-text special case. -/
def spec_survey_coherence (text : List Char) : ℚ :=
  let sentences := splitDot text
  let substantial := (sentences.filter (fun s => (pyWords s).length > 3)).length
  let connectives := findall_count true survey_connectives text
  let personal := if 0 < findall_count false survey_first_person text then 1 else 0
  min 1 ((substantial + connectives + personal : ℚ) / 10)

/-- Helper for `\b\d+\b`: the maximal word-character runs of the text. -/
def wordTokensAux : List Char → List Char → List (List Char)
  | [], acc => if acc.isEmpty then [] else [acc.reverse]
  | c :: cs, acc =>
    if isWordChar c then wordTokensAux cs (c :: acc)
    else if acc.isEmpty then wordTokensAux cs [] else acc.reverse :: wordTokensAux cs []

/-- The maximal word-character runs of the text. -/
def wordTokens (s : List Char) : List (List Char) := wordTokensAux s []

/-- Count `len(re.findall(r"\b\d+\b", text))`: a match is exactly a maximal
word-character run made of digits only. -/
def count_number_tokens (s : List Char) : Nat :=
  ((wordTokens s).filter (fun t => t.all Char.isDigit)).length

/-- Model of `ComprehensiveDataCollector._calculate_specificity`. -/
def calculate_specificity (text : List Char) : ℚ :=
  let specific_indicators : List Nat :=
    [count_number_tokens text,
     findall_count true ["when", "where", "how", "why"] text,
     findall_count true ["example", "instance", "specifically"] text]
  min 1 ((specific_indicators.sum : ℚ) / 5)

/-- Model of `ComprehensiveDataCollector._assess_cultural_relevance`. -/
def assess_cultural_relevance (text : List Char) : ℚ :=
  let cultural_indicators : List Nat :=
    [findall_count true ["family", "community", "tradition", "culture"] text,
     findall_count true ["teacher", "authority", "respect", "hierarchy"] text,
     findall_count true ["individual", "group", "collective", "together"] text]
  min 1 ((cultural_indicators.sum : ℚ) / 3)

/-- Model of `ComprehensiveDataCollector._assess_survey_quality`. -/
def assess_survey_quality (response : List Char) : SurveyQuality :=
  { completeness := min 1 (((pyWords response).length : ℚ) / 50)
    coherence := calculate_coherence response
    specificity := calculate_specificity response
    cultural_relevance := assess_cultural_relevance response }

/-- Model of `ComprehensiveDataCollector.get_summary_statistics`: either an
error-tagged dict or the quick statistics. -/
structure SummaryStats where
  total_interactions : Nat
  unique_agents : Nat
  cultural_diversity : Nat
  avg_response_length : ℚ
  avg_coherence : ℚ
  avg_foundation_alignment : ℚ
  scenario_types : List String
  date_range : List String
deriving DecidableEq

/-- Result of `get_summary_statistics`: the dict either carries the
`error` key or the statistics. -/
inductive SummaryResult
  | error (msg : String)
  | ok (s : SummaryStats)
deriving DecidableEq

/-- Minimum of a list of strings (`df["timestamp"].min()`); the source
only evaluates it on a non-empty log. -/
def listMinStr : List String → String
  | [] => ""
  | x :: xs => xs.foldl min x

/-- Maximum of a list of strings (`df["timestamp"].max()`). -/
def listMaxStr : List String → String
  | [] => ""
  | x :: xs => xs.foldl max x

/-- Model of `ComprehensiveDataCollector.get_summary_statistics`. -/
def get_summary_statistics (interaction_records : List InteractionRecord) : SummaryResult :=
  if interaction_records.isEmpty then .error "No data collected yet"
  else
    .ok { total_interactions := interaction_records.length
          unique_agents := nunique (interaction_records.map (fun r => r.agent_id))
          cultural_diversity := nunique (interaction_records.map (fun r => r.cultural_background))
          avg_response_length :=
            listMean (interaction_records.map (fun r => (r.response_length_words : ℚ)))
          avg_coherence := listMean (interaction_records.map (fun r => r.coherence_score))
          avg_foundation_alignment :=
            listMean (interaction_records.map (fun r => r.foundation_alignment_score))
          scenario_types := uniqueFirst (interaction_records.map (fun r => r.scenario_type))
          date_range := [listMinStr (interaction_records.map (fun r => r.timestamp)),
                         listMaxStr (interaction_records.map (fun r => r.timestamp))] }

end DataCollector

/-! ## DataAnalyzer (`implementation/analysis/data_analyzer.py`)

The aggregate report is computed from the list of interaction records (the
`DataFrame` built from them).  Python floats are modelled as rationals;
the two places that take a square root (`Series.std`, `Series.corr`) are
modelled in `ℝ` with `Real.sqrt`.  `round(x, d)` on floats is modelled as
exact decimal rounding (ties-to-even on rationals, `round` on reals); the
binary-float tie behaviour abstracted away here is irrelevant to every
claim.  `groupby` on string keys returns groups sorted by key (pandas
`sort=True`); `unique()` keeps first-occurrence order. -/

namespace DataAnalyzer

/-- Python `round` to an integer: nearest, ties to even. -/
def roundHalfEven (q : ℚ) : ℤ :=
  let f := ⌊q⌋
  let frac := q - (f : ℚ)
  if frac < 1/2 then f
  else if 1/2 < frac then f + 1
  else if 2 ∣ f then f else f + 1

/-- Python `round(x, d)` on an exact rational. -/
def roundQ (q : ℚ) (d : Nat) : ℚ := (roundHalfEven (q * 10 ^ d) : ℚ) / 10 ^ d

/-- Decimal rounding of a real (`round(x, d)` applied to a value that came
out of a square root). -/
noncomputable def roundR (x : ℝ) (d : Nat) : ℝ := ((round (x * 10 ^ d) : ℤ) : ℝ) / 10 ^ d

/-- The sample variance with `ddof=1` used by `pandas` `Series.std`; a
singleton (or empty) list, where pandas yields NaN, is sent to `0`. -/
def sampleVariance (xs : List ℚ) : ℚ :=
  if xs.length ≤ 1 then 0
  else ((xs.map (fun x => (x - listMean xs) ^ 2)).sum) / ((xs.length : ℚ) - 1)

/-- Model of `pandas` `Series.std` (sample standard deviation). -/
noncomputable def sampleStd (xs : List ℚ) : ℝ := Real.sqrt (sampleVariance xs)

/-- Model of `pandas` `Series.corr` (Pearson):
`Σ(x-x̄)(y-ȳ) / sqrt(Σ(x-x̄)² · Σ(y-ȳ)²)`; a zero denominator, where
pandas yields NaN, gives `0` (division by zero in `ℝ`). -/
noncomputable def pearsonCorr (xs ys : List ℚ) : ℝ :=
  let mx := listMean xs
  let my := listMean ys
  let cov : ℚ := ((xs.zip ys).map (fun p => (p.1 - mx) * (p.2 - my))).sum
  let vx : ℚ := (xs.map (fun x => (x - mx) ^ 2)).sum
  let vy : ℚ := (ys.map (fun y => (y - my) ^ 2)).sum
  (cov : ℝ) / Real.sqrt ((vx : ℝ) * (vy : ℝ))

/-- Insert into a list sorted by `le` (stable). -/
def insertSorted (le : α → α → Bool) (x : α) : List α → List α
  | [] => [x]
  | y :: ys => if le x y then x :: y :: ys else y :: insertSorted le x ys

/-- Stable insertion sort by `le`. -/
def sortBy (le : α → α → Bool) : List α → List α
  | [] => []
  | x :: xs => insertSorted le x (sortBy le xs)

/-- Sort strings ascending (the order `pandas` `groupby(sort=True)` uses
for group keys). -/
def sortStrings (l : List String) : List String := sortBy (fun a b => !decide (b < a)) l

/-- The values of column `val` grouped by the string key `key`:
`df.groupby(key)[val].mean().round(d)`, keys sorted ascending. -/
def groupMeans (key : InteractionRecord → String) (val : InteractionRecord → ℚ)
    (df : List InteractionRecord) (d : Nat) : List (String × ℚ) :=
  (sortStrings (uniqueFirst (df.map key))).map (fun k =>
    (k, roundQ (listMean ((df.filter (fun r => key r == k)).map val)) d))

/-- Group means without rounding (`.mean()` before `idxmax`). -/
def groupMeansRaw (key : InteractionRecord → String) (val : InteractionRecord → ℚ)
    (df : List InteractionRecord) : List (String × ℚ) :=
  (sortStrings (uniqueFirst (df.map key))).map (fun k =>
    (k, listMean ((df.filter (fun r => key r == k)).map val)))

/-- Per-group sample standard deviations (`groupby(...).std()`). -/
noncomputable def groupStds (key : InteractionRecord → String) (val : InteractionRecord → ℚ)
    (df : List InteractionRecord) : List (String × ℝ) :=
  (sortStrings (uniqueFirst (df.map key))).map (fun k =>
    (k, sampleStd ((df.filter (fun r => key r == k)).map val)))

/-- Model of `Series.idxmax` over rational values: the first key attaining the
maximum. -/
def idxmaxQ : List (String × ℚ) → String
  | [] => ""
  | p :: ps => (ps.foldl (fun acc q => if acc.2 < q.2 then q else acc) p).1

open Classical in
/-- Model of `Series.idxmax` over real values: the first key attaining the
maximum. -/
noncomputable def idxmaxR : List (String × ℝ) → String
  | [] => ""
  | p :: ps => (ps.foldl (fun acc q => if acc.2 < q.2 then q else acc) p).1

/-- Minimum of a non-empty rational column. -/
def listMinQ : List ℚ → ℚ
  | [] => 0
  | x :: xs => xs.foldl min x

/-- Maximum of a non-empty rational column. -/
def listMaxQ : List ℚ → ℚ
  | [] => 0
  | x :: xs => xs.foldl max x

/-- Minimum of the integer `age` column. -/
def listMinInt : List ℤ → ℤ
  | [] => 0
  | x :: xs => xs.foldl min x

/-- Maximum of the integer `age` column. -/
def listMaxInt : List ℤ → ℤ
  | [] => 0
  | x :: xs => xs.foldl max x

/-- The fixed age-bucket labels passed to `pd.cut`. -/
def ageLabels : List String := ["Under 18", "18-25", "26-35", "36-50", "Over 50"]

/-- The bucket `pd.cut(age, bins=[0, 18, 25, 35, 50, 100], labels=...)`
assigns: right-closed intervals `(0,18], (18,25], (25,35], (35,50],
(50,100]`; ages outside `(0,100]` fall in no bucket (NaN). -/
def ageGroup (age : ℤ) : Option String :=
  if age ≤ 0 then none
  else if age ≤ 18 then some "Under 18"
  else if age ≤ 25 then some "18-25"
  else if age ≤ 35 then some "26-35"
  else if age ≤ 50 then some "36-50"
  else if age ≤ 100 then some "Over 50"
  else none

/-- Model of `DataAnalyzer._group_by_age`: mean of `val` per age bucket; the
grouping is over the categorical produced by `pd.cut`, so every label
appears (`observed=False`) and an empty bucket carries NaN, modelled as
`none`. -/
def group_by_age (df : List InteractionRecord) (val : InteractionRecord → ℚ) :
    List (String × Option ℚ) :=
  ageLabels.map (fun lbl =>
    let grp := df.filter (fun r => ageGroup r.age == some lbl)
    (lbl, if grp.isEmpty then none else some (roundQ (listMean (grp.map val)) 2)))

/-- Model of `Counter(xs).most_common(k)` keys: counts descending, ties by first
occurrence (insertion order), then the keys of the first `k` pairs. -/
def mostCommon (k : Nat) (xs : List String) : List String :=
  ((sortBy (fun a b => b.2 ≤ a.2)
      ((uniqueFirst xs).map (fun s => (s, xs.count s)))).take k).map (fun p => p.1)

/-- Model of `Series.value_counts()`: counts descending (ties by first
occurrence). -/
def valueCounts (xs : List String) : List (String × Nat) :=
  sortBy (fun a b => b.2 ≤ a.2) ((uniqueFirst xs).map (fun s => (s, xs.count s)))

/-- The `summary` section (`_generate_summary_statistics`). -/
structure SummaryStatistics where
  total_interactions : Nat
  unique_agents : Nat
  avg_response_length_words : ℚ
  response_length_std : ℝ
  cultural_diversity : Nat
  age_range : ℤ × ℤ
  avg_coherence_score : ℚ
  avg_foundation_alignment : ℚ
  scenario_types_covered : List String
  languages_represented : List String

/-- Model of `DataAnalyzer._generate_summary_statistics`. -/
noncomputable def generate_summary_statistics (df : List InteractionRecord) :
    SummaryStatistics :=
  { total_interactions := df.length
    unique_agents := nunique (df.map (fun r => r.agent_id))
    avg_response_length_words :=
      roundQ (listMean (df.map (fun r => (r.response_length_words : ℚ)))) 1
    response_length_std :=
      roundR (sampleStd (df.map (fun r => (r.response_length_words : ℚ)))) 1
    cultural_diversity := nunique (df.map (fun r => r.cultural_background))
    age_range := (listMinInt (df.map (fun r => r.age)), listMaxInt (df.map (fun r => r.age)))
    avg_coherence_score := roundQ (listMean (df.map (fun r => r.coherence_score))) 2
    avg_foundation_alignment :=
      roundQ (listMean (df.map (fun r => r.foundation_alignment_score))) 2
    scenario_types_covered := uniqueFirst (df.map (fun r => r.scenario_type))
    languages_represented := uniqueFirst (df.map (fun r => r.native_language)) }

/-- The nested `response_quality` dict of a culture entry. -/
structure CultureQuality where
  coherence : ℚ
  cultural_consistency : ℚ
  foundation_alignment : ℚ

/-- One entry of the `cultural_analysis` section. -/
structure CultureStats where
  n_participants : Nat
  avg_response_length : ℚ
  avg_trust_level : ℚ
  avg_authority_deference : ℚ
  common_constructs : List String
  response_quality : CultureQuality

/-- Model of `DataAnalyzer._analyze_cultural_patterns`: one entry per distinct
culture in first-occurrence order, skipping the empty label. -/
def analyze_cultural_patterns (df : List InteractionRecord) : List (String × CultureStats) :=
  ((uniqueFirst (df.map (fun r => r.cultural_background))).filter (fun c => c ≠ "")).map
    (fun culture =>
      let culture_df := df.filter (fun r => r.cultural_background == culture)
      (culture,
        { n_participants := culture_df.length
          avg_response_length :=
            roundQ (listMean (culture_df.map (fun r => (r.response_length_words : ℚ)))) 1
          avg_trust_level := roundQ (listMean (culture_df.map (fun r => r.trust_level))) 2
          avg_authority_deference :=
            roundQ (listMean (culture_df.map (fun r => r.authority_deference))) 2
          common_constructs :=
            mostCommon 3 ((culture_df.map (fun r => r.psychological_constructs_evident)).flatten)
          response_quality :=
            { coherence := roundQ (listMean (culture_df.map (fun r => r.coherence_score))) 2
              cultural_consistency :=
                roundQ (listMean (culture_df.map (fun r => r.cultural_consistency_score))) 2
              foundation_alignment :=
                roundQ (listMean (culture_df.map (fun r => r.foundation_alignment_score))) 2 } }))

/-- The five constructs `_analyze_psychological_constructs` iterates. -/
def constructNames : List String :=
  ["cognitive_partnership", "trust_calibration", "agency_distribution",
   "metacognitive_awareness", "cognitive_load_management"]

/-- One entry of the `psychological_constructs` section. -/
structure ConstructStats where
  frequency : Nat
  percentage : ℚ
  cultural_distribution : List (String × Nat)
  avg_coherence : ℚ
  avg_foundation_alignment : ℚ

/-- Model of `DataAnalyzer._analyze_psychological_constructs`: one entry per fixed
construct that occurs in at least one record. -/
def analyze_psychological_constructs (df : List InteractionRecord) :
    List (String × ConstructStats) :=
  constructNames.filterMap (fun construct =>
    let construct_records := df.filter (fun r => r.psychological_constructs_evident.contains construct)
    if construct_records.length = 0 then none
    else some (construct,
      { frequency := construct_records.length
        percentage := roundQ ((construct_records.length : ℚ) / (df.length : ℚ) * 100) 1
        cultural_distribution := valueCounts (construct_records.map (fun r => r.cultural_background))
        avg_coherence := roundQ (listMean (construct_records.map (fun r => r.coherence_score))) 2
        avg_foundation_alignment :=
          roundQ (listMean (construct_records.map (fun r => r.foundation_alignment_score))) 2 }))

/-- A mean/std/min/max block of the `response_quality` section. -/
structure ScoreDistribution where
  mean : ℚ
  std : ℝ
  min : ℚ
  max : ℚ

/-- The `response_quality` section. -/
structure ResponseQualityStats where
  coherence_distribution : ScoreDistribution
  foundation_alignment_distribution : ScoreDistribution
  quality_by_culture : List (String × CultureQuality)
  high_quality_responses : Nat
  low_quality_responses : Nat

/-- Model of `DataAnalyzer._analyze_response_quality`. -/
noncomputable def analyze_response_quality (df : List InteractionRecord) :
    ResponseQualityStats :=
  { coherence_distribution :=
      { mean := roundQ (listMean (df.map (fun r => r.coherence_score))) 2
        std := roundR (sampleStd (df.map (fun r => r.coherence_score))) 2
        min := roundQ (listMinQ (df.map (fun r => r.coherence_score))) 2
        max := roundQ (listMaxQ (df.map (fun r => r.coherence_score))) 2 }
    foundation_alignment_distribution :=
      { mean := roundQ (listMean (df.map (fun r => r.foundation_alignment_score))) 2
        std := roundR (sampleStd (df.map (fun r => r.foundation_alignment_score))) 2
        min := roundQ (listMinQ (df.map (fun r => r.foundation_alignment_score))) 2
        max := roundQ (listMaxQ (df.map (fun r => r.foundation_alignment_score))) 2 }
    quality_by_culture :=
      (sortStrings (uniqueFirst (df.map (fun r => r.cultural_background)))).map (fun c =>
        let g := df.filter (fun r => r.cultural_background == c)
        (c, { coherence := roundQ (listMean (g.map (fun r => r.coherence_score))) 2
              cultural_consistency :=
                roundQ (listMean (g.map (fun r => r.cultural_consistency_score))) 2
              foundation_alignment :=
                roundQ (listMean (g.map (fun r => r.foundation_alignment_score))) 2 }))
    high_quality_responses := (df.filter (fun r => r.coherence_score > 4/5)).length
    low_quality_responses := (df.filter (fun r => r.coherence_score < 1/2)).length }

/-- The `behavioral_patterns` section. -/
structure BehavioralPatterns where
  trust_by_culture : List (String × ℚ)
  trust_by_age_group : List (String × Option ℚ)
  trust_overall_range : ℚ × ℚ
  help_seeking_by_culture : List (String × ℚ)
  help_seeking_by_emotional_state : List (String × ℚ)
  authority_by_culture : List (String × ℚ)
  authority_by_ses : List (String × ℚ)

/-- Model of `DataAnalyzer._analyze_behavioral_patterns`. -/
def analyze_behavioral_patterns (df : List InteractionRecord) : BehavioralPatterns :=
  { trust_by_culture := groupMeans (fun r => r.cultural_background) (fun r => r.trust_level) df 2
    trust_by_age_group := group_by_age df (fun r => r.trust_level)
    trust_overall_range :=
      (roundQ (listMinQ (df.map (fun r => r.trust_level))) 2,
       roundQ (listMaxQ (df.map (fun r => r.trust_level))) 2)
    help_seeking_by_culture :=
      groupMeans (fun r => r.cultural_background) (fun r => r.help_seeking_tendency) df 2
    help_seeking_by_emotional_state :=
      groupMeans (fun r => r.emotional_state) (fun r => r.help_seeking_tendency) df 2
    authority_by_culture :=
      groupMeans (fun r => r.cultural_background) (fun r => r.authority_deference) df 2
    authority_by_ses :=
      groupMeans (fun r => r.socioeconomic_status) (fun r => r.authority_deference) df 2 }

/-- The `alignment_trends` sub-dict of the `foundation_alignment`
section. -/
structure AlignmentTrends where
  alignment_correlation_with_trust : ℝ
  alignment_correlation_with_coherence : ℝ
  best_aligned_culture : String
  most_variable_culture : String

/-- The `foundation_alignment` section. -/
structure FoundationAlignmentStats where
  overall_alignment : ℚ
  alignment_by_culture : List (String × ℚ)
  alignment_by_scenario : List (String × ℚ)
  low_alignment_cases : Nat
  high_alignment_cases : Nat
  alignment_trends : AlignmentTrends

/-- Model of `DataAnalyzer._analyze_alignment_trends`. -/
noncomputable def analyze_alignment_trends (df : List InteractionRecord) : AlignmentTrends :=
  { alignment_correlation_with_trust :=
      roundR (pearsonCorr (df.map (fun r => r.foundation_alignment_score))
        (df.map (fun r => r.trust_level))) 2
    alignment_correlation_with_coherence :=
      roundR (pearsonCorr (df.map (fun r => r.foundation_alignment_score))
        (df.map (fun r => r.coherence_score))) 2
    best_aligned_culture :=
      idxmaxQ (groupMeansRaw (fun r => r.cultural_background)
        (fun r => r.foundation_alignment_score) df)
    most_variable_culture :=
      idxmaxR (groupStds (fun r => r.cultural_background)
        (fun r => r.foundation_alignment_score) df) }

/-- Model of `DataAnalyzer._analyze_foundation_alignment`. -/
noncomputable def analyze_foundation_alignment (df : List InteractionRecord) :
    FoundationAlignmentStats :=
  { overall_alignment := roundQ (listMean (df.map (fun r => r.foundation_alignment_score))) 2
    alignment_by_culture :=
      groupMeans (fun r => r.cultural_background) (fun r => r.foundation_alignment_score) df 2
    alignment_by_scenario :=
      groupMeans (fun r => r.scenario_type) (fun r => r.foundation_alignment_score) df 2
    low_alignment_cases := (df.filter (fun r => r.foundation_alignment_score < 1/2)).length
    high_alignment_cases := (df.filter (fun r => r.foundation_alignment_score > 4/5)).length
    alignment_trends := analyze_alignment_trends df }

/-- The `demographic_insights` section. -/
structure DemographicInsights where
  response_length_by_age : List (String × Option ℚ)
  trust_by_age : List (String × Option ℚ)
  response_length_by_gender : List (String × ℚ)
  help_seeking_by_gender : List (String × ℚ)
  response_quality_by_proficiency : List (String × ℚ)
  response_length_by_native_language : List (String × ℚ)

/-- Model of `DataAnalyzer._analyze_demographic_patterns`. -/
def analyze_demographic_patterns (df : List InteractionRecord) : DemographicInsights :=
  { response_length_by_age := group_by_age df (fun r => (r.response_length_words : ℚ))
    trust_by_age := group_by_age df (fun r => r.trust_level)
    response_length_by_gender :=
      groupMeans (fun r => r.gender) (fun r => (r.response_length_words : ℚ)) df 1
    help_seeking_by_gender :=
      groupMeans (fun r => r.gender) (fun r => r.help_seeking_tendency) df 2
    response_quality_by_proficiency :=
      groupMeans (fun r => r.english_proficiency) (fun r => r.coherence_score) df 2
    response_length_by_native_language :=
      groupMeans (fun r => r.native_language) (fun r => (r.response_length_words : ℚ)) df 1 }

/-- Model of `DataAnalyzer._generate_recommendations`: four sentences, one per
threshold check, in a fixed order. -/
def generate_recommendations (df : List InteractionRecord) : List String :=
  [(if listMean (df.map (fun r => r.coherence_score)) > 7/10 then
      "High response quality suggests simulation is suitable for research use"
    else
      "Consider improving agent prompts to increase response coherence"),
   (if nunique (df.map (fun r => r.cultural_background)) ≥ 4 then
      "Good cultural diversity achieved for cross-cultural research"
    else
      "Consider adding more cultural backgrounds for comprehensive diversity"),
   (if listMean (df.map (fun r => r.foundation_alignment_score)) > 3/5 then
      "Strong foundation alignment validates theoretical consistency"
    else
      "Review foundation document integration to improve theoretical alignment"),
   (if df.length > 100 then
      "Sample size adequate for statistical analysis"
    else
      "Consider increasing sample size for more robust statistical analysis")]

/-- The full aggregate report. -/
structure ComprehensiveAnalysis where
  summary : SummaryStatistics
  cultural_analysis : List (String × CultureStats)
  psychological_constructs : List (String × ConstructStats)
  response_quality : ResponseQualityStats
  behavioral_patterns : BehavioralPatterns
  foundation_alignment : FoundationAlignmentStats
  demographic_insights : DemographicInsights
  recommendations : List String

/-- Result of `generate_comprehensive_analysis`: the returned dict either
carries the `error` key or the eight sections. -/
inductive AnalysisResult
  | error (msg : String)
  | ok (a : ComprehensiveAnalysis)

set_option linter.unusedVariables false in
/-- Model of `DataAnalyzer.generate_comprehensive_analysis`.  Both constructor
arguments of the Python object are in scope; the body reads only
`self.interaction_records` (the survey log is never consulted), exactly as
in the source. -/
noncomputable def generate_comprehensive_analysis
    (interaction_records : List InteractionRecord)
    (survey_responses : List SurveyRecord) : AnalysisResult :=
  if interaction_records.isEmpty then .error "No interaction records to analyze"
  else
    .ok { summary := generate_summary_statistics interaction_records
          cultural_analysis := analyze_cultural_patterns interaction_records
          psychological_constructs := analyze_psychological_constructs interaction_records
          response_quality := analyze_response_quality interaction_records
          behavioral_patterns := analyze_behavioral_patterns interaction_records
          foundation_alignment := analyze_foundation_alignment interaction_records
          demographic_insights := analyze_demographic_patterns interaction_records
          recommendations := generate_recommendations interaction_records }

end DataAnalyzer

/-- The state of a `DataAnalyzer` object: the two lists handed to its
constructor.  `generate_comprehensive_analysis` contains no assignment, so
a method call is modelled as returning the result together with the
(unchanged) object state. -/
structure DataAnalyzerState where
  interaction_records : List InteractionRecord
  survey_responses : List SurveyRecord

/-- A call `analyzer.generate_comprehensive_analysis()`: the returned
report together with the object state after the call. -/
noncomputable def generateComprehensiveAnalysisCall (a : DataAnalyzerState) :
    DataAnalyzer.AnalysisResult × DataAnalyzerState :=
  (DataAnalyzer.generate_comprehensive_analysis a.interaction_records a.survey_responses, a)

/-! ## Claim-support definitions -/

/-- The balanced-culture consistency formula exactly as the specification
words it: the counts use the FULL individualistic and collectivistic
marker sets (the balanced branch of the source uses reduced sets instead). -/
def spec_balanced_score (response : List Char) : ℚ :=
  let response_lower := lowerList response
  let individual_count := findall_count false ResponseAnalyzer.individualistic_markers response_lower
  let collective_count := findall_count false ResponseAnalyzer.collectivistic_markers response_lower
  1 - |(individual_count : ℚ) - (collective_count : ℚ)| /
      ((max 1 (individual_count + collective_count) : Nat) : ℚ)

/-- A profile whose culture label is exactly `"balanced"`. -/
def balanced_profile : ProfileSummary := { emptyProfile with culture := some "balanced" }

/-- A concrete interaction record used to instantiate universally
quantified theorems. -/
def sample_record (culture : String) : InteractionRecord :=
  { timestamp := "2026-01-01T00:00:00"
    agent_id := "agent_1"
    interaction_type := "scenario"
    scenario_name := "s"
    scenario_type := "general"
    prompt_text := ""
    context := ""
    task_description := ""
    raw_response := "ok"
    response_length_words := 1
    response_length_chars := 2
    cultural_background := culture
    age := 20
    gender := "female"
    native_language := "English"
    english_proficiency := "Advanced"
    socioeconomic_status := "middle"
    emotional_state := "calm"
    trust_level := 1/2
    help_seeking_tendency := 1/2
    authority_deference := 1/2
    privacy_concern := 1/2
    coherence_score := 1
    cultural_consistency_score := 1
    foundation_alignment_score := 1
    question_types_asked := []
    response_categories := ["neutral"]
    psychological_constructs_evident := [] }

/-- A log of 101 records over four distinct cultures, with unit coherence and
alignment scores: a concrete log meeting all four recommendation
thresholds. -/
def sample_records_101 : List InteractionRecord :=
  [sample_record "East Asian", sample_record "Western European", sample_record "Latin American"]
    ++ List.replicate 98 (sample_record "South Asian")

/-- A concrete survey record. -/
def sample_survey : SurveyRecord :=
  { timestamp := "2026-01-01T00:00:00"
    agent_id := "agent_1"
    survey_type := "general"
    raw_responses := "I liked it."
    profile_context := ""
    response_quality := DataCollector.assess_survey_quality "I liked it.".toList }

/-! ## Helper lemmas -/

/-- A count divided by `max 1 n`, with count at most `n`, lies in `[0, 1]`. -/
theorem count_div_max_mem_unit (k n : Nat) (hk : k ≤ n) :
    0 ≤ (k : ℚ) / ((max 1 n : Nat) : ℚ) ∧ (k : ℚ) / ((max 1 n : Nat) : ℚ) ≤ 1 := by
  have hpos : (0 : ℚ) < ((max 1 n : Nat) : ℚ) := by
    have h1 : (1 : Nat) ≤ max 1 n := le_max_left 1 n
    exact_mod_cast Nat.lt_of_lt_of_le Nat.zero_lt_one h1
  constructor
  · exact div_nonneg (Nat.cast_nonneg k) (le_of_lt hpos)
  · rw [div_le_one hpos]
    exact_mod_cast le_trans hk (le_max_right 1 n)

/-- Capping: `min 1 x` of a nonnegative `x` lies in `[0, 1]`. -/
theorem min_one_mem_unit (x : ℚ) (hx : 0 ≤ x) : 0 ≤ min 1 x ∧ min 1 x ≤ 1 :=
  ⟨le_min zero_le_one hx, min_le_left 1 x⟩

/-- The mean of a non-empty list of values in `[0, 1]` lies in `[0, 1]`. -/
theorem listMean_mem_unit (xs : List ℚ) (hne : xs ≠ [])
    (h : ∀ x ∈ xs, 0 ≤ x ∧ x ≤ 1) : 0 ≤ listMean xs ∧ listMean xs ≤ 1 := by
  have hlen : 0 < xs.length := List.length_pos.mpr hne
  have hlenQ : (0 : ℚ) < (xs.length : ℚ) := by exact_mod_cast hlen
  have hsum0 : 0 ≤ xs.sum := List.sum_nonneg (fun x hx => (h x hx).1)
  have hsumle : xs.sum ≤ (xs.length : ℚ) := by
    have := List.sum_le_card_nsmul xs 1 (fun x hx => (h x hx).2)
    simpa using this
  constructor
  · exact div_nonneg hsum0 (le_of_lt hlenQ)
  · rw [listMean, div_le_one hlenQ]
    exact hsumle

/-- Helper: `uniqueFirstGo` never returns more elements than its input has. -/
theorem uniqueFirstGo_length_le [DecidableEq α] (l : List α) :
    ∀ seen : List α, (uniqueFirstGo seen l).length ≤ l.length := by
  induction l with
  | nil => intro seen; simp [uniqueFirstGo]
  | cons x xs ih =>
    intro seen
    simp only [uniqueFirstGo]
    split
    · exact le_trans (ih seen) (Nat.le_succ _)
    · simpa using ih (x :: seen)

/-- Deduplication never returns more elements than its input has. -/
theorem uniqueFirst_length_le [DecidableEq α] (xs : List α) :
    (uniqueFirst xs).length ≤ xs.length :=
  uniqueFirstGo_length_le xs []

/-- The first coherence factor lies in `[0, 1]`. -/
theorem substantial_fraction_mem_unit (response : List Char) :
    0 ≤ ResponseAnalyzer.substantial_fraction response ∧
    ResponseAnalyzer.substantial_fraction response ≤ 1 := by
  simp only [ResponseAnalyzer.substantial_fraction]
  exact count_div_max_mem_unit _ _ (List.length_filter_le _ _)

/-- The second coherence factor lies in `[0, 1]`. -/
theorem connective_factor_mem_unit (response : List Char) :
    0 ≤ ResponseAnalyzer.connective_factor response ∧
    ResponseAnalyzer.connective_factor response ≤ 1 := by
  simp only [ResponseAnalyzer.connective_factor]
  exact min_one_mem_unit _ (by positivity)

/-- The third coherence factor lies in `[0, 1]`. -/
theorem personal_factor_mem_unit (response : List Char) :
    0 ≤ ResponseAnalyzer.personal_factor response ∧
    ResponseAnalyzer.personal_factor response ≤ 1 := by
  simp only [ResponseAnalyzer.personal_factor]
  exact min_one_mem_unit _ (by positivity)

/-- The coherence score lies in `[0, 1]` for every text. -/
theorem calculate_coherence_mem_unit (response : List Char) :
    0 ≤ ResponseAnalyzer.calculate_coherence response ∧
    ResponseAnalyzer.calculate_coherence response ≤ 1 := by
  simp only [ResponseAnalyzer.calculate_coherence]
  split
  · norm_num
  · apply listMean_mem_unit _ (by simp)
    intro x hx
    simp only [List.mem_cons, List.not_mem_nil, or_false] at hx
    rcases hx with h | h | h | h
    · exact h ▸ substantial_fraction_mem_unit response
    · exact h ▸ connective_factor_mem_unit response
    · exact h ▸ personal_factor_mem_unit response
    · rw [h]; norm_num

/-- The cultural-consistency score lies in `[0, 1]` for every text and
profile. -/
theorem assess_cultural_consistency_mem_unit (response : List Char) (profile : ProfileSummary) :
    0 ≤ ResponseAnalyzer.assess_cultural_consistency response profile ∧
    ResponseAnalyzer.assess_cultural_consistency response profile ≤ 1 := by
  simp only [ResponseAnalyzer.assess_cultural_consistency]
  split
  · exact min_one_mem_unit _ (by positivity)
  · split
    · exact min_one_mem_unit _ (by positivity)
    · split
      · set i := findall_count false ResponseAnalyzer.balanced_individual_markers (lowerList response) with hi
        set c := findall_count false ResponseAnalyzer.balanced_collective_markers (lowerList response) with hc
        have hpos : (0 : ℚ) < ((max 1 (i + c) : Nat) : ℚ) := by
          have h1 : (1 : Nat) ≤ max 1 (i + c) := le_max_left _ _
          exact_mod_cast Nat.lt_of_lt_of_le Nat.zero_lt_one h1
        have habs : |(i : ℚ) - (c : ℚ)| ≤ ((max 1 (i + c) : Nat) : ℚ) := by
          have h2 : |(i : ℚ) - (c : ℚ)| ≤ (i : ℚ) + (c : ℚ) := by
            have hi0 : (0 : ℚ) ≤ (i : ℚ) := Nat.cast_nonneg i
            have hc0 : (0 : ℚ) ≤ (c : ℚ) := Nat.cast_nonneg c
            rcases abs_cases ((i : ℚ) - (c : ℚ)) with ⟨heq, _⟩ | ⟨heq, _⟩ <;> rw [heq] <;> linarith
          have h3 : ((i + c : Nat) : ℚ) ≤ ((max 1 (i + c) : Nat) : ℚ) := by
            exact_mod_cast le_max_right 1 (i + c)
          calc |(i : ℚ) - (c : ℚ)| ≤ (i : ℚ) + (c : ℚ) := h2
            _ = ((i + c : Nat) : ℚ) := by push_cast; ring
            _ ≤ _ := h3
        have hratio0 : 0 ≤ |(i : ℚ) - (c : ℚ)| / ((max 1 (i + c) : Nat) : ℚ) :=
          div_nonneg (abs_nonneg _) (le_of_lt hpos)
        have hratio1 : |(i : ℚ) - (c : ℚ)| / ((max 1 (i + c) : Nat) : ℚ) ≤ 1 := by
          rw [div_le_one hpos]; exact habs
        constructor <;> linarith
      · norm_num

/-- The foundation-alignment score lies in `[0, 1]` for every text. -/
theorem assess_foundation_alignment_mem_unit (response : List Char) :
    0 ≤ ResponseAnalyzer.assess_foundation_alignment response ∧
    ResponseAnalyzer.assess_foundation_alignment response ≤ 1 := by
  simp only [ResponseAnalyzer.assess_foundation_alignment]
  apply listMean_mem_unit
  · simp [ResponseAnalyzer.foundation_keywords]
  · intro x hx
    simp only [List.mem_map] at hx
    obtain ⟨entry, _, rfl⟩ := hx
    exact min_one_mem_unit _ (by positivity)

/-- The proficiency-consistency score lies in `[0, 1]` for every text and
profile. -/
theorem assess_proficiency_consistency_mem_unit (response : List Char) (profile : ProfileSummary) :
    0 ≤ ResponseAnalyzer.assess_proficiency_consistency response profile ∧
    ResponseAnalyzer.assess_proficiency_consistency response profile ≤ 1 := by
  simp only [ResponseAnalyzer.assess_proficiency_consistency]
  constructor
  · exact le_max_left 0 _
  · exact max_le (by norm_num) (min_le_left 1 _)

/-- The complexity score lies in `[0, 1]` for every text. -/
theorem calculate_complexity_mem_unit (response : List Char) :
    0 ≤ ResponseAnalyzer.calculate_complexity response ∧
    ResponseAnalyzer.calculate_complexity response ≤ 1 := by
  simp only [ResponseAnalyzer.calculate_complexity]
  split
  · norm_num
  · apply listMean_mem_unit _ (by simp)
    intro x hx
    simp only [List.mem_cons, List.not_mem_nil, or_false] at hx
    rcases hx with h | h | h
    · subst h
      refine count_div_max_mem_unit _ _ ?_
      calc (uniqueFirst ((pyWords response).map lowerList)).length
          ≤ ((pyWords response).map lowerList).length := uniqueFirst_length_le _
        _ = (pyWords response).length := List.length_map _ _
    · subst h
      exact min_one_mem_unit _ (by positivity)
    · subst h
      exact min_one_mem_unit _ (by positivity)

/-! ## Claim theorems -/

set_option linter.unusedVariables false in
/-- Claim C1: for every non-empty, non-whitespace-only text and every
profile, each numeric score produced by `analyze_response` — coherence,
cultural consistency, foundation alignment, complexity, and the
proficiency-consistency linguistic feature — lies in `[0, 1]`. -/
theorem claim1_analyze_response_scores_in_unit (response : String) (profile : ProfileSummary)
    (context : InteractionData)
    (h1 : response.toList.isEmpty = false)
    (h2 : (pyStrip response.toList).isEmpty = false) :
    (0 ≤ (ResponseAnalyzer.analyze_response response.toList profile context).coherence_score ∧
     (ResponseAnalyzer.analyze_response response.toList profile context).coherence_score ≤ 1) ∧
    (0 ≤ (ResponseAnalyzer.analyze_response response.toList profile context).cultural_consistency ∧
     (ResponseAnalyzer.analyze_response response.toList profile context).cultural_consistency ≤ 1) ∧
    (0 ≤ (ResponseAnalyzer.analyze_response response.toList profile context).foundation_alignment ∧
     (ResponseAnalyzer.analyze_response response.toList profile context).foundation_alignment ≤ 1) ∧
    (0 ≤ (ResponseAnalyzer.analyze_response response.toList profile context).complexity_score ∧
     (ResponseAnalyzer.analyze_response response.toList profile context).complexity_score ≤ 1) ∧
    ((ResponseAnalyzer.analyze_response response.toList profile context).linguistic_analysis
        = some (ResponseAnalyzer.analyze_linguistic_features response.toList profile) ∧
     0 ≤ (ResponseAnalyzer.analyze_linguistic_features response.toList profile).proficiency_consistency ∧
     (ResponseAnalyzer.analyze_linguistic_features response.toList profile).proficiency_consistency ≤ 1) := by
  simp only [ResponseAnalyzer.analyze_response, h1, h2, Bool.or_self, Bool.false_or,
    if_neg, Bool.false_eq_true, not_false_iff, ite_false]
  refine ⟨calculate_coherence_mem_unit _, assess_cultural_consistency_mem_unit _ _,
    assess_foundation_alignment_mem_unit _, calculate_complexity_mem_unit _, trivial, ?_⟩
  have h := assess_proficiency_consistency_mem_unit response.toList profile
  simpa [ResponseAnalyzer.analyze_linguistic_features] using h

/-- Witness for C1 at the concrete response
"Hello world. I think we should verify this together." -/
theorem claim1_witness :
    (0 ≤ (ResponseAnalyzer.analyze_response
            "Hello world. I think we should verify this together.".toList
            emptyProfile emptyInteractionData).coherence_score ∧
     (ResponseAnalyzer.analyze_response
            "Hello world. I think we should verify this together.".toList
            emptyProfile emptyInteractionData).coherence_score ≤ 1) :=
  (claim1_analyze_response_scores_in_unit
    "Hello world. I think we should verify this together." emptyProfile emptyInteractionData
    (by decide) (by decide)).1

/-- Claim C2: on the text "I think this is correct. I believe it works.
However, I would verify.": one connective match, three personal-phrase
matches, factor a = 1/3, factor b = 0.2, factor c = 1.0, and a coherence
score of (1/3 + 0.2 + 1.0 + 0.8)/4 = 7/12. -/
theorem claim2_coherence_concrete :
    findall_count true ResponseAnalyzer.connectives_pattern
      "I think this is correct. I believe it works. However, I would verify.".toList = 1 ∧
    findall_count true ResponseAnalyzer.personal_pattern
      "I think this is correct. I believe it works. However, I would verify.".toList = 3 ∧
    ResponseAnalyzer.substantial_fraction
      "I think this is correct. I believe it works. However, I would verify.".toList = 1/3 ∧
    ResponseAnalyzer.connective_factor
      "I think this is correct. I believe it works. However, I would verify.".toList = 1/5 ∧
    ResponseAnalyzer.personal_factor
      "I think this is correct. I believe it works. However, I would verify.".toList = 1 ∧
    ResponseAnalyzer.calculate_coherence
      "I think this is correct. I believe it works. However, I would verify.".toList
      = (1/3 + 1/5 + 1 + 4/5) / 4 ∧
    ResponseAnalyzer.calculate_coherence
      "I think this is correct. I believe it works. However, I would verify.".toList = 7/12 := by
  refine ⟨?_, ?_, ?_, ?_, ?_, ?_, ?_⟩ <;> with_unfolding_all rfl

/-- Counterexample to C3 as stated: with culture "balanced" and response
"family", the score of the source is 1 (the reduced marker sets see no match at
all) while the claimed full-set formula gives 0. -/
theorem claim3_counterexample :
    ResponseAnalyzer.assess_cultural_consistency "family".toList balanced_profile = 1 ∧
    spec_balanced_score "family".toList = 0 ∧
    ResponseAnalyzer.assess_cultural_consistency "family".toList balanced_profile
      ≠ spec_balanced_score "family".toList := by
  refine ⟨?_, ?_, ?_⟩ <;> with_unfolding_all decide

set_option linter.unusedVariables false in
/-- Claim C3 amended: for every non-empty text whose profile culture label
contains "balanced" (case-insensitively) and contains neither
"individualistic" nor "collectivistic", the cultural-consistency score is
`1 - |i - c| / max(1, i + c)` where `i` and `c` count matches of the
REDUCED marker sets `{i, my, myself}` and `{we, our, together}` against
the lower-cased text. -/
theorem claim3_amended (response : String) (profile : ProfileSummary)
    (h0 : response.toList.isEmpty = false)
    (hb : containsSub "balanced".toList (lowerList (profile.culture.getD "").toList) = true)
    (hni : containsSub "individualistic".toList (lowerList (profile.culture.getD "").toList) = false)
    (hnc : containsSub "collectivistic".toList (lowerList (profile.culture.getD "").toList) = false) :
    ResponseAnalyzer.assess_cultural_consistency response.toList profile =
      1 - |(findall_count false ResponseAnalyzer.balanced_individual_markers (lowerList response.toList) : ℚ) -
            (findall_count false ResponseAnalyzer.balanced_collective_markers (lowerList response.toList) : ℚ)| /
          ((max 1 (findall_count false ResponseAnalyzer.balanced_individual_markers (lowerList response.toList) +
                   findall_count false ResponseAnalyzer.balanced_collective_markers (lowerList response.toList)) : Nat) : ℚ) := by
  simp only [ResponseAnalyzer.assess_cultural_consistency, hb, hni, hnc]
  simp

/-- Witness for the amended C3 on the response "we work together as a
family" with culture "balanced". -/
theorem claim3_witness :
    ResponseAnalyzer.assess_cultural_consistency "we work together as a family".toList
        balanced_profile =
      1 - |(findall_count false ResponseAnalyzer.balanced_individual_markers
              (lowerList "we work together as a family".toList) : ℚ) -
            (findall_count false ResponseAnalyzer.balanced_collective_markers
              (lowerList "we work together as a family".toList) : ℚ)| /
          ((max 1 (findall_count false ResponseAnalyzer.balanced_individual_markers
                    (lowerList "we work together as a family".toList) +
                   findall_count false ResponseAnalyzer.balanced_collective_markers
                    (lowerList "we work together as a family".toList)) : Nat) : ℚ) :=
  claim3_amended "we work together as a family" balanced_profile
    (by decide) (by decide) (by decide) (by decide)

/-- Claim C4: `record_agent_interaction` always appends the returned record
to the log, and when the response analysis raises, the record carries the
neutral fallback bundle (all three scores 0.5, all three tag sets empty);
the exception is never propagated (the function is total). -/
theorem claim4_record_fallback (agent_id : String) (interaction_data : InteractionData)
    (attempt : Except String DataCollector.ResponseAnalysisCore) (now : String)
    (log : List InteractionRecord) (e : String) :
    (DataCollector.record_agent_interaction agent_id interaction_data attempt now log).2
      = log ++ [(DataCollector.record_agent_interaction agent_id interaction_data attempt now log).1] ∧
    (attempt = .error e →
      (DataCollector.record_agent_interaction agent_id interaction_data attempt now log).1.coherence_score = 1/2 ∧
      (DataCollector.record_agent_interaction agent_id interaction_data attempt now log).1.cultural_consistency_score = 1/2 ∧
      (DataCollector.record_agent_interaction agent_id interaction_data attempt now log).1.foundation_alignment_score = 1/2 ∧
      (DataCollector.record_agent_interaction agent_id interaction_data attempt now log).1.question_types_asked = [] ∧
      (DataCollector.record_agent_interaction agent_id interaction_data attempt now log).1.response_categories = [] ∧
      (DataCollector.record_agent_interaction agent_id interaction_data attempt now log).1.psychological_constructs_evident = []) := by
  constructor
  · rfl
  · intro h
    subst h
    exact ⟨rfl, rfl, rfl, rfl, rfl, rfl⟩

/-- Witness for C4: a concrete failing analysis yields the neutral
record. -/
theorem claim4_witness :
    (DataCollector.record_agent_interaction "agent_1" emptyInteractionData
        (.error "boom") "t0" []).1.coherence_score = 1/2 ∧
    (DataCollector.record_agent_interaction "agent_1" emptyInteractionData
        (.error "boom") "t0" []).1.cultural_consistency_score = 1/2 ∧
    (DataCollector.record_agent_interaction "agent_1" emptyInteractionData
        (.error "boom") "t0" []).1.foundation_alignment_score = 1/2 ∧
    (DataCollector.record_agent_interaction "agent_1" emptyInteractionData
        (.error "boom") "t0" []).1.question_types_asked = [] ∧
    (DataCollector.record_agent_interaction "agent_1" emptyInteractionData
        (.error "boom") "t0" []).1.response_categories = [] ∧
    (DataCollector.record_agent_interaction "agent_1" emptyInteractionData
        (.error "boom") "t0" []).1.psychological_constructs_evident = [] :=
  (claim4_record_fallback "agent_1" emptyInteractionData (.error "boom") "t0" [] "boom").2 rfl

/-- Claim C5: on an empty interaction log, `generate_comprehensive_analysis`
returns the error-tagged result for every survey-log content, and
`get_summary_statistics` returns its error marker; neither raises (both
are total functions). -/
theorem claim5_empty_log_error (survey_responses : List SurveyRecord) :
    DataAnalyzer.generate_comprehensive_analysis [] survey_responses
      = .error "No interaction records to analyze" ∧
    DataCollector.get_summary_statistics [] = .error "No data collected yet" :=
  ⟨rfl, rfl⟩

set_option linter.unusedVariables false in
/-- Claim C6: for every non-empty record log the recommendations section
has exactly four sentences, one from the fixed pair of each threshold
check; and when all four thresholds are met, all four positive sentences
are produced. -/
theorem claim6_recommendations (df : List InteractionRecord) (hne : df ≠ []) :
    ((DataAnalyzer.generate_recommendations df).length = 4 ∧
     ("High response quality suggests simulation is suitable for research use"
         ∈ DataAnalyzer.generate_recommendations df ∨
      "Consider improving agent prompts to increase response coherence"
         ∈ DataAnalyzer.generate_recommendations df) ∧
     ("Good cultural diversity achieved for cross-cultural research"
         ∈ DataAnalyzer.generate_recommendations df ∨
      "Consider adding more cultural backgrounds for comprehensive diversity"
         ∈ DataAnalyzer.generate_recommendations df) ∧
     ("Strong foundation alignment validates theoretical consistency"
         ∈ DataAnalyzer.generate_recommendations df ∨
      "Review foundation document integration to improve theoretical alignment"
         ∈ DataAnalyzer.generate_recommendations df) ∧
     ("Sample size adequate for statistical analysis"
         ∈ DataAnalyzer.generate_recommendations df ∨
      "Consider increasing sample size for more robust statistical analysis"
         ∈ DataAnalyzer.generate_recommendations df)) ∧
    (listMean (df.map (fun r => r.coherence_score)) > 7/10 →
     nunique (df.map (fun r => r.cultural_background)) ≥ 4 →
     listMean (df.map (fun r => r.foundation_alignment_score)) > 3/5 →
     df.length > 100 →
     DataAnalyzer.generate_recommendations df =
       ["High response quality suggests simulation is suitable for research use",
        "Good cultural diversity achieved for cross-cultural research",
        "Strong foundation alignment validates theoretical consistency",
        "Sample size adequate for statistical analysis"]) := by
  constructor
  · refine ⟨by simp [DataAnalyzer.generate_recommendations], ?_, ?_, ?_, ?_⟩
    · by_cases h : listMean (df.map (fun r => r.coherence_score)) > 7/10
      · left; simp [DataAnalyzer.generate_recommendations, h]
      · right; simp [DataAnalyzer.generate_recommendations, h]
    · by_cases h : nunique (df.map (fun r => r.cultural_background)) ≥ 4
      · left; simp [DataAnalyzer.generate_recommendations, h]
      · right; simp [DataAnalyzer.generate_recommendations, h]
    · by_cases h : listMean (df.map (fun r => r.foundation_alignment_score)) > 3/5
      · left; simp [DataAnalyzer.generate_recommendations, h]
      · right; simp [DataAnalyzer.generate_recommendations, h]
    · by_cases h : df.length > 100
      · left; simp [DataAnalyzer.generate_recommendations, h]
      · right; simp [DataAnalyzer.generate_recommendations, h]
  · intro h1 h2 h3 h4
    simp only [DataAnalyzer.generate_recommendations, if_pos h1, if_pos h2, if_pos h3, if_pos h4]

set_option maxRecDepth 4000 in
/-- Witness for C6: 101 records over four cultures with unit scores
produce the four positive recommendation sentences. -/
theorem claim6_witness :
    DataAnalyzer.generate_recommendations sample_records_101 =
      ["High response quality suggests simulation is suitable for research use",
       "Good cultural diversity achieved for cross-cultural research",
       "Strong foundation alignment validates theoretical consistency",
       "Sample size adequate for statistical analysis"] :=
  (claim6_recommendations sample_records_101 (by decide)).2
    (by with_unfolding_all decide) (by decide) (by with_unfolding_all decide) (by decide)

/-- Claim C7: a call to `generate_comprehensive_analysis` leaves the
analyzer state unchanged, and a second call on the resulting state returns
an identical report: the aggregate report is a pure, deterministic
function of the log snapshot with no hidden mutable aggregation state. -/
theorem claim7_analysis_idempotent (a : DataAnalyzerState) :
    (generateComprehensiveAnalysisCall a).2 = a ∧
    (generateComprehensiveAnalysisCall ((generateComprehensiveAnalysisCall a).2)).1
      = (generateComprehensiveAnalysisCall a).1 :=
  ⟨rfl, rfl⟩

/-- Counterexample to C8 as stated: on the empty survey text the
coherence is 0.5 (the fewer-than-two-chunks early return) while the
claimed capped ratio is 0. -/
theorem claim8_counterexample :
    DataCollector.calculate_coherence "".toList = 1/2 ∧
    DataCollector.spec_survey_coherence "".toList = 0 ∧
    DataCollector.calculate_coherence "".toList ≠ DataCollector.spec_survey_coherence "".toList := by
  refine ⟨?_, ?_, ?_⟩ <;> with_unfolding_all decide

/-- Claim C8 amended: for every survey text that contains at least one
period (so `text.split('.')` has at least two chunks), the coherence
sub-score equals the capped ratio
`min(1, (substantial + connectives + first-person flag) / 10)`; texts
without a period score 0.5. -/
theorem claim8_amended (text : String)
    (h : 2 ≤ (splitDot text.toList).length) :
    DataCollector.calculate_coherence text.toList
      = DataCollector.spec_survey_coherence text.toList := by
  simp only [DataCollector.calculate_coherence, DataCollector.spec_survey_coherence]
  rw [if_neg (by omega)]

/-- Witness for the amended C8 on the text "a.b". -/
theorem claim8_witness :
    DataCollector.calculate_coherence "a.b".toList
      = DataCollector.spec_survey_coherence "a.b".toList :=
  claim8_amended "a.b" (by decide)

/-- Claim C9 (code bug): `pd.cut` with right-closed bins `[0, 18, 25, 35,
50, 100]` files age 18 under the label "Under 18", contradicting both the
claim and the label scheme of the code itself, and leaves every age above 100 (and
the default age 0) in no bucket at all. -/
theorem claim9_age_bucket_bug :
    DataAnalyzer.ageGroup 18 = some "Under 18" ∧
    DataAnalyzer.ageGroup 18 ≠ some "18-25" ∧
    DataAnalyzer.ageGroup 101 = none ∧
    DataAnalyzer.ageGroup 0 = none := by
  refine ⟨?_, ?_, ?_, ?_⟩ <;> decide

set_option linter.unusedVariables false in
/-- Claim C10: the aggregate report does not depend on the survey log —
for every non-empty interaction log and any two survey logs the reports
are identical. -/
theorem claim10_survey_independent (interaction_records : List InteractionRecord)
    (s1 s2 : List SurveyRecord) (hne : interaction_records ≠ []) :
    DataAnalyzer.generate_comprehensive_analysis interaction_records s1
      = DataAnalyzer.generate_comprehensive_analysis interaction_records s2 := rfl

/-- Witness for C10 on a concrete one-record log and two different survey
logs. -/
theorem claim10_witness :
    DataAnalyzer.generate_comprehensive_analysis [sample_record "East Asian"] []
      = DataAnalyzer.generate_comprehensive_analysis [sample_record "East Asian"] [sample_survey] :=
  claim10_survey_independent [sample_record "East Asian"] [] [sample_survey] (by decide)
